import Mathlib

/-!
Shallow embedding of the dialog-fulfillment backend in src/dynamic_chatbot.py.

Modelling conventions:
- Python dicts with a fixed key set become structures; a value that may be
  `None` becomes an `Option`.
- The DynamoDB product table becomes an explicit `Store` (a list of catalog
  items in store iteration order); the one write (`put_item` on the order
  table) is returned as an explicit list of `OrderRecord`s.
- `uuid.uuid4()` is modelled as an extra input `orderId` to the handler.
- `parse_int` returns `Option Int`; `none` stands for the `float("nan")`
  sentinel, and the NaN comparison semantics (`nan < x` and `nan > x` are
  both false) are made explicit in `nan_lt` / `nan_gt`.
- Python string formatting of a possibly-`None` slot renders `None` as the
  text "None" (`pyStr`); a raw slot handed to a store query is totalized
  with the empty string (`slotStr`), a path no claim exercises with a null
  slot.
- `raise Exception(...)` in `dispatch` becomes `Except.error`.
-/

namespace DynamicChatbot

/-- A slot name recognized by the bot: the keys of the currentIntent.slots
mapping. -/
inductive SlotName where
  | productType
  | productFlavor
  | orderQuantity
deriving DecidableEq

/-- A plain-text message object, Python dict with contentType and content. -/
structure Message where
  contentType : String
  content : String
deriving DecidableEq

/-- The currentIntent.slots mapping: each recognized slot name maps to a
string or null. -/
structure Slots where
  productType : Option String
  productFlavor : Option String
  orderQuantity : Option String
deriving DecidableEq

/-- Session attributes: an opaque string-to-string mapping. -/
abbrev SessionAttrs := List (String × String)

/-- The incoming dialog turn (the Lex event). `sessionAttributes` and
`userId` may be null. -/
structure IntentRequest where
  invocationSource : String
  intentName : String
  slots : Slots
  sessionAttributes : Option SessionAttrs
  userId : Option String
deriving DecidableEq

/-- The dialogAction part of a response: one of the three shapes built by
elicit_slot, delegate and close. -/
inductive DialogAction where
  | elicitSlot (intentName : String) (slots : Slots) (slotToElicit : Option SlotName)
      (message : Option Message)
  | delegate (slots : Slots)
  | close (fulfillmentState : String) (message : Message)
deriving DecidableEq

/-- The outgoing response: sessionAttributes plus one dialogAction. -/
structure Response where
  sessionAttributes : Option SessionAttrs
  dialogAction : DialogAction
deriving DecidableEq

/-- One item of the DynamoDB product table: productType, productFlavor and
the numeric productId attribute (stored as a numeric string). -/
structure Product where
  productType : String
  productFlavor : String
  productId : String
deriving DecidableEq

/-- The product table, in store iteration order. -/
structure Store where
  products : List Product
deriving DecidableEq

/-- One record written to the order table by placeOrder (all four
attributes stringified exactly as put_item does). -/
structure OrderRecord where
  orderId : String
  userId : String
  productId : String
  orderQuantity : String
deriving DecidableEq

/-- Result of validating one slot; `message` is absent when the message
content passed to build_validation_result is None. -/
structure ValidationResult where
  isValid : Bool
  violatedSlot : Option SlotName
  message : Option Message
deriving DecidableEq

/-- The value parse_int produces: `none` models the float NaN sentinel
returned on ValueError. -/
abbrev NumVal := Option Int

/-- Read a slot by name from the mapping. -/
def getSlot (slots : Slots) (name : SlotName) : Option String :=
  match name with
  | SlotName.productType => slots.productType
  | SlotName.productFlavor => slots.productFlavor
  | SlotName.orderQuantity => slots.orderQuantity

/-- Write a slot by name into the mapping. -/
def setSlot (slots : Slots) (name : SlotName) (value : Option String) : Slots :=
  match name with
  | SlotName.productType => { slots with productType := value }
  | SlotName.productFlavor => { slots with productFlavor := value }
  | SlotName.orderQuantity => { slots with orderQuantity := value }

/-- slots[violatedSlot] = None, where violatedSlot comes out of a
ValidationResult (always some name when invalid). -/
def setSlotO (slots : Slots) (name : Option SlotName) : Slots :=
  match name with
  | some n => setSlot slots n none
  | none => slots

/-- Python str() of a possibly-null slot value, as used by format: None
renders as "None". -/
def pyStr (s : Option String) : String :=
  match s with
  | some v => v
  | none => "None"

/-- Totalization of a raw slot handed to a store query. -/
def slotStr (s : Option String) : String :=
  match s with
  | some v => v
  | none => ""

/-- ASCII lower-casing of a string, via its character list (agrees with
str.lower() on the ASCII data this program handles). -/
def pyLower (s : String) : String :=
  String.mk (s.data.map Char.toLower)

/-- Split a character list on every non-overlapping occurrence of `sep`,
left to right; `fuel` bounds the recursion. -/
def splitOnChAux (sep : List Char) : Nat → List Char → List Char → List (List Char)
  | 0, rest, acc => [acc.reverse ++ rest]
  | fuel + 1, l, acc =>
    match l with
    | [] => [acc.reverse]
    | c :: cs =>
      if sep ≠ [] ∧ l.take sep.length = sep then
        acc.reverse :: splitOnChAux sep fuel (l.drop sep.length) []
      else
        splitOnChAux sep fuel cs (c :: acc)

/-- s.split(sep) for a non-empty separator. -/
def pySplitOn (s sep : String) : List String :=
  (splitOnChAux sep.data (s.data.length + 1) s.data []).map String.mk

/-- sep.join(parts). -/
def pyJoin (sep : String) : List String → String
  | [] => ""
  | [x] => x
  | x :: y :: xs => x ++ sep ++ pyJoin sep (y :: xs)

/-- s.rsplit(old, occurrence): split from the right at most `occurrence`
times. -/
def rsplit (s old : String) (occurrence : Nat) : List String :=
  let parts := pySplitOn s old
  if parts.length ≤ occurrence + 1 then parts
  else
    let keep := parts.length - occurrence
    [pyJoin old (parts.take keep)] ++ parts.drop keep

/-- rreplace: replace the last `occurrence` occurrences of old with new. -/
def rreplace (s old new : String) (occurrence : Nat) : String :=
  let li := rsplit s old occurrence
  pyJoin new li

/-- parse_int: int(n) on success (optional surrounding spaces, optional
sign, at least one decimal digit), the NaN sentinel (here `none`) on
ValueError. -/
def parse_int (n : String) : NumVal :=
  let ds := (n.data.dropWhile (fun c => c = ' ')).reverse
  let ds := (ds.dropWhile (fun c => c = ' ')).reverse
  match ds with
  | [] => none
  | c :: cs =>
    let digits := if c = '-' ∨ c = '+' then cs else c :: cs
    if digits ≠ [] ∧ digits.all (fun d => d.isDigit) then
      let m : Nat := digits.foldl (fun acc d => 10 * acc + (d.toNat - 48)) 0
      if c = '-' then some (-(m : Int)) else some (m : Int)
    else none

/-- NaN-aware less-than: NaN < b is false. -/
def nan_lt (x : NumVal) (b : Int) : Bool :=
  match x with
  | some v => decide (v < b)
  | none => false

/-- NaN-aware greater-than: NaN > b is false. -/
def nan_gt (x : NumVal) (b : Int) : Bool :=
  match x with
  | some v => decide (v > b)
  | none => false

/-- str() of a parse_int result, as stored by put_item: NaN prints "nan". -/
def numValStr (x : NumVal) : String :=
  match x with
  | some v => toString v
  | none => "nan"

/-- convert_string_array_to_string: comma-join, then replace the last
", " with " and ". -/
def convert_string_array_to_string (stringArray : List String) : String :=
  let stringList := pyJoin ", " stringArray
  rreplace stringList ", " " and " 1

/-- get_slots: read currentIntent.slots from the request. -/
def get_slots (intent_request : IntentRequest) : Slots :=
  intent_request.slots

/-- elicit_slot response builder. -/
def elicit_slot (session_attributes : Option SessionAttrs) (intent_name : String)
    (slots : Slots) (slot_to_elicit : Option SlotName) (message : Option Message) : Response :=
  { sessionAttributes := session_attributes,
    dialogAction := DialogAction.elicitSlot intent_name slots slot_to_elicit message }

/-- close response builder. -/
def close (session_attributes : Option SessionAttrs) (fulfillment_state : String)
    (message : Message) : Response :=
  { sessionAttributes := session_attributes,
    dialogAction := DialogAction.close fulfillment_state message }

/-- delegate response builder. -/
def delegate (session_attributes : Option SessionAttrs) (slots : Slots) : Response :=
  { sessionAttributes := session_attributes,
    dialogAction := DialogAction.delegate slots }

/-- build_validation_result: the message key is absent when
message_content is None. -/
def build_validation_result (is_valid : Bool) (violated_slot : Option SlotName)
    (message_content : Option String) : ValidationResult :=
  match message_content with
  | none => { isValid := is_valid, violatedSlot := violated_slot, message := none }
  | some content =>
      { isValid := is_valid, violatedSlot := violated_slot,
        message := some { contentType := "PlainText", content := content } }

/-- get_product_types: the fixed in-process product-type list. -/
def get_product_types : List String :=
  ["ice cream", "frozen yogurt"]

/-- get_product_flavors: query the product table for items with the given
productType; return their productFlavor attributes, lower-cased, in store
order. -/
def get_product_flavors (store : Store) (productType : String) : List String :=
  let items := store.products.filter (fun p => p.productType = productType)
  items.map (fun p => pyLower p.productFlavor)

/-- get_product_id: query the product table for the item matching both
productType and productFlavor; parse_int of the first match's productId,
or None when there is no match. -/
def get_product_id (store : Store) (productType productFlavor : String) : Option NumVal :=
  let items := store.products.filter
    (fun p => p.productType = productType ∧ p.productFlavor = productFlavor)
  match items with
  | [] => none
  | item :: _ => some (parse_int item.productId)

/-- validate_product_type. -/
def validate_product_type (productType : Option String) : ValidationResult :=
  match productType with
  | some pt =>
      let productTypes := get_product_types
      if pyLower pt ∉ productTypes then
        let productTypesList := convert_string_array_to_string productTypes
        build_validation_result false (some SlotName.productType)
          (some ("We do not have " ++ pt ++
            ", please select one of the following products. We offer:  " ++ productTypesList))
      else build_validation_result true none none
  | none => build_validation_result true none none

/-- validate_product_flavor: `productType` is the (non-null) type slot
value handed to the catalog query. -/
def validate_product_flavor (store : Store) (productType : String)
    (productFlavor : Option String) : ValidationResult :=
  match productFlavor with
  | some pf =>
      let productFlavors := get_product_flavors store productType
      if pyLower pf ∉ productFlavors then
        let productFlavorsList := convert_string_array_to_string productFlavors
        build_validation_result false (some SlotName.productFlavor)
          (some ("We do not have " ++ pf ++ " " ++ productType ++
            ", please select one of the following " ++ productType ++ " flavors.  " ++
            productFlavorsList))
      else build_validation_result true none none
  | none => build_validation_result true none none

/-- validate_order_quantity: the two NaN-aware comparisons mirror
parse_int(...) < 5 and parse_int(...) > 30. -/
def validate_order_quantity (orderQuantity : Option String) : ValidationResult :=
  match orderQuantity with
  | some q =>
      if nan_lt (parse_int q) 5 then
        build_validation_result false (some SlotName.orderQuantity)
          (some "Sorry but the minimum order quantity is 5 cups. How many would you like to order?")
      else if nan_gt (parse_int q) 30 then
        build_validation_result false (some SlotName.orderQuantity)
          (some "Sorry but the maximum order quantity for online orders is 30. Please contact us directly for larger quantity orders. How many cups would you like to order instead?")
      else build_validation_result true none none
  | none => build_validation_result true none none

/-- placeOrder: write one order record (all attributes stringified) and
return the freshly generated orderId; the fresh uuid is the `orderId`
argument. -/
def placeOrder (orderId : String) (userId : String) (productId : NumVal)
    (orderQuantity : Option String) : String × OrderRecord :=
  (orderId,
    { orderId := orderId, userId := userId, productId := numValStr productId,
      orderQuantity := pyStr orderQuantity })

/-- i_product_flavor: the GetProductFlavor intent handler. -/
def i_product_flavor (store : Store) (intent_request : IntentRequest) : Response :=
  let source := intent_request.invocationSource
  let slots := get_slots intent_request
  if source = "DialogCodeHook" then
    let productTypeVal := validate_product_type slots.productType
    if productTypeVal.isValid = false then
      let slots := setSlotO slots productTypeVal.violatedSlot
      elicit_slot intent_request.sessionAttributes intent_request.intentName slots
        productTypeVal.violatedSlot productTypeVal.message
    else
      let output_session_attributes :=
        match intent_request.sessionAttributes with
        | some s => some s
        | none => some ([] : SessionAttrs)
      delegate output_session_attributes slots
  else
    let productFlavorsList :=
      convert_string_array_to_string (get_product_flavors store (slotStr slots.productType))
    close intent_request.sessionAttributes "Fulfilled"
      { contentType := "PlainText",
        content := "Our " ++ pyStr slots.productType ++
          " offering consists of the following flavors: " ++ productFlavorsList ++ "." }

/-- i_order_product: the OrderProduct intent handler. Returns the response
together with the list of order records written during the call. -/
def i_order_product (store : Store) (orderId : String)
    (intent_request : IntentRequest) : Response × List OrderRecord :=
  let source := intent_request.invocationSource
  let slots := get_slots intent_request
  let userId :=
    match intent_request.userId with
    | some u => u
    | none => "0"
  if source = "DialogCodeHook" then
    let slots :=
      if slots.productType = none ∧ slots.productFlavor ≠ none then
        { slots with productType := slots.productFlavor }
      else slots
    let productTypeVal := validate_product_type slots.productType
    if productTypeVal.isValid = false then
      let slots := setSlotO slots productTypeVal.violatedSlot
      (elicit_slot intent_request.sessionAttributes intent_request.intentName slots
        productTypeVal.violatedSlot productTypeVal.message, [])
    else
      let flavorStep : Response × List OrderRecord :=
        let orderQuantityVal := validate_order_quantity slots.orderQuantity
        if orderQuantityVal.isValid = false then
          let slots := setSlotO slots orderQuantityVal.violatedSlot
          (elicit_slot intent_request.sessionAttributes intent_request.intentName slots
            orderQuantityVal.violatedSlot orderQuantityVal.message, [])
        else
          let output_session_attributes :=
            match intent_request.sessionAttributes with
            | some s => some s
            | none => some ([] : SessionAttrs)
          (delegate output_session_attributes slots, [])
      match slots.productType with
      | some t =>
          let productFlavorVal := validate_product_flavor store t slots.productFlavor
          if productFlavorVal.isValid = false then
            let slots := setSlotO slots productFlavorVal.violatedSlot
            (elicit_slot intent_request.sessionAttributes intent_request.intentName slots
              productFlavorVal.violatedSlot productFlavorVal.message, [])
          else flavorStep
      | none => flavorStep
  else
    let productId := get_product_id store (slotStr slots.productType) (slotStr slots.productFlavor)
    match productId with
    | none =>
        (close intent_request.sessionAttributes "Fulfilled"
          { contentType := "PlainText",
            content := "Sorry your order of " ++ pyStr slots.orderQuantity ++ " cups of " ++
              pyStr slots.productFlavor ++ " " ++ pyStr slots.productType ++
              " has not been placed due to a system error. Please try it again later or contact us via info@reInvent.bootcamp." }, [])
    | some pid =>
        let placed := placeOrder orderId userId pid slots.orderQuantity
        (close intent_request.sessionAttributes "Fulfilled"
          { contentType := "PlainText",
            content := "Thank you for ordering through reInvent bootcamp bot. You order of " ++
              pyStr slots.orderQuantity ++ " cups of " ++ pyStr slots.productFlavor ++ " " ++
              pyStr slots.productType ++
              " has been placed and will be processed immediately (Order ID: " ++
              placed.1 ++ "). Can I help you with anything else?" }, [placed.2])

/-- i_help: the Help intent handler (closes unconditionally). -/
def i_help (intent_request : IntentRequest) : Response :=
  close intent_request.sessionAttributes "Fulfilled"
    { contentType := "PlainText",
      content := "Hi this is lex, your personal assistant. - Would you like to order something? - or should I show you a list of available flavors for one of our products?" }

/-- dispatch: route on the intent name; an unrecognized name raises, which
is modelled as Except.error carrying the exception message. -/
def dispatch (store : Store) (orderId : String)
    (intent_request : IntentRequest) : Except String (Response × List OrderRecord) :=
  let intent_name := intent_request.intentName
  if intent_name = "GetProductFlavor" then
    Except.ok (i_product_flavor store intent_request, [])
  else if intent_name = "OrderProduct" then
    Except.ok (i_order_product store orderId intent_request)
  else if intent_name = "Help" then
    Except.ok (i_help intent_request, [])
  else
    Except.error ("Intent with name " ++ intent_name ++ " not supported")

set_option maxRecDepth 100000

/-! ## Helper lemmas -/

lemma validate_product_type_violatedSlot (o : Option String)
    (h : (validate_product_type o).isValid = false) :
    (validate_product_type o).violatedSlot = some SlotName.productType := by
  cases o with
  | none => simp [validate_product_type, build_validation_result] at h
  | some pt =>
      simp only [validate_product_type] at h ⊢
      split at h <;> simp_all [build_validation_result]

lemma validate_product_flavor_violatedSlot (store : Store) (t : String) (o : Option String)
    (h : (validate_product_flavor store t o).isValid = false) :
    (validate_product_flavor store t o).violatedSlot = some SlotName.productFlavor := by
  cases o with
  | none => simp [validate_product_flavor, build_validation_result] at h
  | some pf =>
      simp only [validate_product_flavor] at h ⊢
      split at h <;> simp_all [build_validation_result]

lemma validate_order_quantity_violatedSlot (o : Option String)
    (h : (validate_order_quantity o).isValid = false) :
    (validate_order_quantity o).violatedSlot = some SlotName.orderQuantity := by
  cases o with
  | none => simp [validate_order_quantity, build_validation_result] at h
  | some q =>
      simp only [validate_order_quantity] at h ⊢
      split at h
      · simp_all [build_validation_result]
      · split at h <;> simp_all [build_validation_result]

lemma getSlot_setSlot_self (s : Slots) (name : SlotName) :
    getSlot (setSlot s name none) name = none := by
  cases name <;> rfl

lemma convert_product_types_eq :
    convert_string_array_to_string get_product_types = "ice cream and frozen yogurt" := by
  decide

/-- The plain-text message dict built throughout the source. -/
def plainTextMessage (content : String) : Message :=
  { contentType := "PlainText", content := content }

/-! ## Claim theorems -/

/-- C7: for each of the three validators, an absent (null) slot value
yields a valid result with no violated slot and no message. -/
theorem validators_accept_absent_slot (store : Store) (productType : String) :
    validate_product_type none = { isValid := true, violatedSlot := none, message := none }
  ∧ validate_product_flavor store productType none =
      { isValid := true, violatedSlot := none, message := none }
  ∧ validate_order_quantity none = { isValid := true, violatedSlot := none, message := none } :=
  ⟨rfl, rfl, rfl⟩

/-- C8: a non-null product type not case-insensitively equal to one of the
two catalog types is rejected with violated slot productType and a message
listing both types joined as "ice cream and frozen yogurt". -/
theorem product_type_rejects_unknown (pt : String)
    (h1 : pyLower pt ≠ "ice cream") (h2 : pyLower pt ≠ "frozen yogurt") :
    validate_product_type (some pt) =
      { isValid := false, violatedSlot := some SlotName.productType,
        message := some (plainTextMessage ("We do not have " ++ pt ++
          ", please select one of the following products. We offer:  " ++
          "ice cream and frozen yogurt")) } := by
  have hmem : pyLower pt ∉ get_product_types := by
    simp [get_product_types, h1, h2]
  simp [validate_product_type, hmem, convert_product_types_eq, build_validation_result,
    plainTextMessage]

/-- Witness for C8 at the concrete input "soda". -/
theorem product_type_rejects_unknown_witness :
    pyLower "soda" ≠ "ice cream"
  ∧ pyLower "soda" ≠ "frozen yogurt"
  ∧ validate_product_type (some "soda") =
      { isValid := false, violatedSlot := some SlotName.productType,
        message := some (plainTextMessage ("We do not have " ++ "soda" ++
          ", please select one of the following products. We offer:  " ++
          "ice cream and frozen yogurt")) } :=
  ⟨by decide, by decide, product_type_rejects_unknown "soda" (by decide) (by decide)⟩

/-- C10: a non-null quantity that fails integer parsing hits the NaN
sentinel, which fails both range comparisons, so the validator silently
accepts it. -/
theorem order_quantity_accepts_unparsable (q : String) (h : parse_int q = none) :
    validate_order_quantity (some q) =
      { isValid := true, violatedSlot := none, message := none } := by
  simp [validate_order_quantity, nan_lt, nan_gt, h, build_validation_result]

/-- Witness for C10 at the concrete inputs "abc" and "3.5". -/
theorem order_quantity_accepts_unparsable_witness :
    parse_int "abc" = none
  ∧ validate_order_quantity (some "abc") =
      { isValid := true, violatedSlot := none, message := none }
  ∧ parse_int "3.5" = none
  ∧ validate_order_quantity (some "3.5") =
      { isValid := true, violatedSlot := none, message := none } :=
  ⟨by decide, order_quantity_accepts_unparsable "abc" (by decide),
   by decide, order_quantity_accepts_unparsable "3.5" (by decide)⟩

/-- C3: for a quantity that parses to an integer n, the validator accepts
exactly the inclusive range [5, 30]; below 5 it returns the
minimum-quantity message and above 30 the distinct maximum-quantity
message naming the offline contact channel. -/
theorem order_quantity_range (q : String) (n : Int) (h : parse_int q = some n) :
    (5 ≤ n ∧ n ≤ 30 →
      validate_order_quantity (some q) =
        { isValid := true, violatedSlot := none, message := none })
  ∧ (n < 5 →
      validate_order_quantity (some q) =
        { isValid := false, violatedSlot := some SlotName.orderQuantity,
          message := some (plainTextMessage "Sorry but the minimum order quantity is 5 cups. How many would you like to order?") })
  ∧ (30 < n →
      validate_order_quantity (some q) =
        { isValid := false, violatedSlot := some SlotName.orderQuantity,
          message := some (plainTextMessage "Sorry but the maximum order quantity for online orders is 30. Please contact us directly for larger quantity orders. How many cups would you like to order instead?") }) := by
  refine ⟨fun h1 => ?_, fun h1 => ?_, fun h1 => ?_⟩
  · have c1 : decide (n < 5) = false := by simp only [decide_eq_false_iff_not]; omega
    have c2 : decide (n > 30) = false := by simp only [decide_eq_false_iff_not]; omega
    simp [validate_order_quantity, nan_lt, nan_gt, h, c1, c2, build_validation_result]
  · have c1 : decide (n < 5) = true := by simp only [decide_eq_true_eq]; omega
    simp [validate_order_quantity, nan_lt, nan_gt, h, c1, build_validation_result,
      plainTextMessage]
  · have c1 : decide (n < 5) = false := by simp only [decide_eq_false_iff_not]; omega
    have c2 : decide (n > 30) = true := by simp only [decide_eq_true_eq]; omega
    simp [validate_order_quantity, nan_lt, nan_gt, h, c1, c2, build_validation_result,
      plainTextMessage]

/-- Witness for C3 at the concrete inputs "4", "5", "30" and "31". -/
theorem order_quantity_range_witness :
    parse_int "4" = some 4
  ∧ validate_order_quantity (some "4") =
      { isValid := false, violatedSlot := some SlotName.orderQuantity,
        message := some (plainTextMessage "Sorry but the minimum order quantity is 5 cups. How many would you like to order?") }
  ∧ validate_order_quantity (some "5") =
      { isValid := true, violatedSlot := none, message := none }
  ∧ validate_order_quantity (some "30") =
      { isValid := true, violatedSlot := none, message := none }
  ∧ validate_order_quantity (some "31") =
      { isValid := false, violatedSlot := some SlotName.orderQuantity,
        message := some (plainTextMessage "Sorry but the maximum order quantity for online orders is 30. Please contact us directly for larger quantity orders. How many cups would you like to order instead?") } :=
  ⟨by decide,
   (order_quantity_range "4" 4 (by decide)).2.1 (by decide),
   (order_quantity_range "5" 5 (by decide)).1 (by decide),
   (order_quantity_range "30" 30 (by decide)).1 (by decide),
   (order_quantity_range "31" 31 (by decide)).2.2 (by decide)⟩

/-- C4: dispatch on any intent name other than the three supported ones
produces the fatal unsupported-intent error and no response action. -/
theorem dispatch_unsupported_intent (store : Store) (orderId : String) (req : IntentRequest)
    (h1 : req.intentName ≠ "GetProductFlavor")
    (h2 : req.intentName ≠ "OrderProduct")
    (h3 : req.intentName ≠ "Help") :
    dispatch store orderId req =
      Except.error ("Intent with name " ++ req.intentName ++ " not supported") := by
  simp [dispatch, h1, h2, h3]

/-- Witness for C4 at the concrete intent name "Unsupported". -/
theorem dispatch_unsupported_intent_witness :
    ("Unsupported" : String) ≠ "GetProductFlavor"
  ∧ ("Unsupported" : String) ≠ "OrderProduct"
  ∧ ("Unsupported" : String) ≠ "Help"
  ∧ dispatch { products := [] } "oid"
      { invocationSource := "DialogCodeHook", intentName := "Unsupported",
        slots := { productType := none, productFlavor := none, orderQuantity := none },
        sessionAttributes := none, userId := none } =
      Except.error ("Intent with name " ++ "Unsupported" ++ " not supported") :=
  ⟨by decide, by decide, by decide,
   dispatch_unsupported_intent { products := [] } "oid"
     { invocationSource := "DialogCodeHook", intentName := "Unsupported",
       slots := { productType := none, productFlavor := none, orderQuantity := none },
       sessionAttributes := none, userId := none }
     (by decide) (by decide) (by decide)⟩

/-- C1: in the fulfilling state, when the product-identifier lookup for
the turn's type and flavor finds no catalog entry, the handler returns a
Close carrying the system-error apology and writes no order record. -/
theorem order_fulfill_lookup_miss (store : Store) (orderId : String) (req : IntentRequest)
    (hs : req.invocationSource = "FulfillmentCodeHook")
    (hl : get_product_id store (slotStr req.slots.productType)
            (slotStr req.slots.productFlavor) = none) :
    i_order_product store orderId req =
      (close req.sessionAttributes "Fulfilled"
        (plainTextMessage ("Sorry your order of " ++ pyStr req.slots.orderQuantity ++
          " cups of " ++ pyStr req.slots.productFlavor ++ " " ++ pyStr req.slots.productType ++
          " has not been placed due to a system error. Please try it again later or contact us via info@reInvent.bootcamp.")),
       []) := by
  have hne : ("FulfillmentCodeHook" : String) ≠ "DialogCodeHook" := by decide
  simp [i_order_product, get_slots, hs, hne, hl, plainTextMessage]

/-- Witness for C1: empty catalog, concrete fulfilling turn. -/
theorem order_fulfill_lookup_miss_witness :
    ({ invocationSource := "FulfillmentCodeHook", intentName := "OrderProduct",
       slots := { productType := some "ice cream", productFlavor := some "mint",
                  orderQuantity := some "5" },
       sessionAttributes := some [], userId := some "u1" } : IntentRequest).invocationSource =
      "FulfillmentCodeHook"
  ∧ get_product_id { products := [] } "ice cream" "mint" = none
  ∧ i_order_product { products := [] } "oid-1"
      { invocationSource := "FulfillmentCodeHook", intentName := "OrderProduct",
        slots := { productType := some "ice cream", productFlavor := some "mint",
                   orderQuantity := some "5" },
        sessionAttributes := some [], userId := some "u1" } =
      (close (some []) "Fulfilled"
        (plainTextMessage ("Sorry your order of " ++ "5" ++ " cups of " ++ "mint" ++ " " ++
          "ice cream" ++
          " has not been placed due to a system error. Please try it again later or contact us via info@reInvent.bootcamp.")),
       []) :=
  ⟨rfl, by decide,
   order_fulfill_lookup_miss { products := [] } "oid-1"
     { invocationSource := "FulfillmentCodeHook", intentName := "OrderProduct",
       slots := { productType := some "ice cream", productFlavor := some "mint",
                  orderQuantity := some "5" },
       sessionAttributes := some [], userId := some "u1" }
     rfl (by decide)⟩

/-- C2: in the fulfilling state, when the lookup returns a product id,
exactly one order record is written, carrying that product id and the
confirmed quantity, and the Close message embeds the freshly generated
order identifier verbatim together with the quantity, flavor and type. -/
theorem order_fulfill_success (store : Store) (orderId : String) (req : IntentRequest)
    (pid : NumVal)
    (hs : req.invocationSource = "FulfillmentCodeHook")
    (hl : get_product_id store (slotStr req.slots.productType)
            (slotStr req.slots.productFlavor) = some pid) :
    i_order_product store orderId req =
      (close req.sessionAttributes "Fulfilled"
        (plainTextMessage ("Thank you for ordering through reInvent bootcamp bot. You order of " ++
          pyStr req.slots.orderQuantity ++ " cups of " ++ pyStr req.slots.productFlavor ++ " " ++
          pyStr req.slots.productType ++
          " has been placed and will be processed immediately (Order ID: " ++ orderId ++
          "). Can I help you with anything else?")),
       [{ orderId := orderId, userId := req.userId.getD "0", productId := numValStr pid,
          orderQuantity := pyStr req.slots.orderQuantity }]) := by
  have hne : ("FulfillmentCodeHook" : String) ≠ "DialogCodeHook" := by decide
  cases hu : req.userId <;>
    simp [i_order_product, get_slots, hs, hne, hl, hu, placeOrder, plainTextMessage]

/-- Witness for C2: one catalog item with productId 7, concrete fulfilling
turn carrying quantity 5. -/
theorem order_fulfill_success_witness :
    get_product_id
        { products := [{ productType := "ice cream", productFlavor := "Mint", productId := "7" }] }
        "ice cream" "Mint" = some (some 7)
  ∧ i_order_product
      { products := [{ productType := "ice cream", productFlavor := "Mint", productId := "7" }] }
      "oid-1"
      { invocationSource := "FulfillmentCodeHook", intentName := "OrderProduct",
        slots := { productType := some "ice cream", productFlavor := some "Mint",
                   orderQuantity := some "5" },
        sessionAttributes := some [], userId := some "u1" } =
      (close (some []) "Fulfilled"
        (plainTextMessage ("Thank you for ordering through reInvent bootcamp bot. You order of " ++
          "5" ++ " cups of " ++ "Mint" ++ " " ++ "ice cream" ++
          " has been placed and will be processed immediately (Order ID: " ++ "oid-1" ++
          "). Can I help you with anything else?")),
       [{ orderId := "oid-1", userId := "u1", productId := numValStr (some 7),
          orderQuantity := "5" }]) :=
  ⟨by decide,
   order_fulfill_success
     { products := [{ productType := "ice cream", productFlavor := "Mint", productId := "7" }] }
     "oid-1"
     { invocationSource := "FulfillmentCodeHook", intentName := "OrderProduct",
       slots := { productType := some "ice cream", productFlavor := some "Mint",
                  orderQuantity := some "5" },
       sessionAttributes := some [], userId := some "u1" }
     (some 7) rfl (by decide)⟩

/-- C5: in the validating state of the order-place intent, the flavor
value is first copied into an empty type slot, then type, flavor (only
when the type slot is non-null) and quantity are validated in that fixed
order, short-circuiting with an ElicitSlot on the first violation and
delegating with the repaired slot mapping when all pass. -/
theorem order_validation_sequence (store : Store) (orderId : String) (req : IntentRequest)
    (s1 : Slots)
    (hs : req.invocationSource = "DialogCodeHook")
    (hs1 : s1 = if req.slots.productType = none ∧ req.slots.productFlavor ≠ none then
        { req.slots with productType := req.slots.productFlavor } else req.slots) :
    ((validate_product_type s1.productType).isValid = false →
      i_order_product store orderId req =
        (elicit_slot req.sessionAttributes req.intentName (setSlot s1 SlotName.productType none)
          (some SlotName.productType) (validate_product_type s1.productType).message, []))
  ∧ (∀ t, s1.productType = some t →
      (validate_product_type s1.productType).isValid = true →
      (validate_product_flavor store t s1.productFlavor).isValid = false →
      i_order_product store orderId req =
        (elicit_slot req.sessionAttributes req.intentName (setSlot s1 SlotName.productFlavor none)
          (some SlotName.productFlavor) (validate_product_flavor store t s1.productFlavor).message,
         []))
  ∧ ((validate_product_type s1.productType).isValid = true →
      (∀ t, s1.productType = some t →
        (validate_product_flavor store t s1.productFlavor).isValid = true) →
      (validate_order_quantity s1.orderQuantity).isValid = false →
      i_order_product store orderId req =
        (elicit_slot req.sessionAttributes req.intentName (setSlot s1 SlotName.orderQuantity none)
          (some SlotName.orderQuantity) (validate_order_quantity s1.orderQuantity).message, []))
  ∧ ((validate_product_type s1.productType).isValid = true →
      (∀ t, s1.productType = some t →
        (validate_product_flavor store t s1.productFlavor).isValid = true) →
      (validate_order_quantity s1.orderQuantity).isValid = true →
      i_order_product store orderId req =
        (delegate (some (req.sessionAttributes.getD [])) s1, [])) := by
  subst hs1
  refine ⟨?_, ?_, ?_, ?_⟩
  · intro hinv
    have hv := validate_product_type_violatedSlot _ hinv
    simp [i_order_product, get_slots, hs, hinv, hv, setSlotO]
  · intro t ht hval hinv
    have hv := validate_product_flavor_violatedSlot _ _ _ hinv
    rw [ht] at hval
    simp [i_order_product, get_slots, hs, ht, hval, hinv, hv, setSlotO]
  · intro hval hfl hinv
    have hv := validate_order_quantity_violatedSlot _ hinv
    simp only [i_order_product, get_slots]
    rw [hs, if_pos rfl, hval, if_neg (by decide)]
    split
    · rename_i t ht
      rw [hfl t ht, if_neg (by decide), if_pos hinv, hv]
      simp [setSlotO]
    · rw [if_pos hinv, hv]
      simp [setSlotO]
  · intro hval hfl hq
    simp only [i_order_product, get_slots]
    rw [hs, if_pos rfl, hval, if_neg (by decide)]
    split
    · rename_i t ht
      rw [hfl t ht, if_neg (by decide), hq, if_neg (by decide)]
      cases req.sessionAttributes <;> rfl
    · rw [hq, if_neg (by decide)]
      cases req.sessionAttributes <;> rfl

/-- Witness for C5: a turn with an empty type slot and flavor slot "soda";
the repair copies "soda" into the type slot, whose validation then fails
first. -/
theorem order_validation_sequence_witness :
    ({ invocationSource := "DialogCodeHook", intentName := "OrderProduct",
       slots := { productType := none, productFlavor := some "soda", orderQuantity := none },
       sessionAttributes := none, userId := none } : IntentRequest).invocationSource =
      "DialogCodeHook"
  ∧ ({ productType := some "soda", productFlavor := some "soda", orderQuantity := none } : Slots) =
      (if ({ productType := none, productFlavor := some "soda", orderQuantity := none } : Slots).productType = none ∧
          ({ productType := none, productFlavor := some "soda", orderQuantity := none } : Slots).productFlavor ≠ none then
        { ({ productType := none, productFlavor := some "soda", orderQuantity := none } : Slots) with
            productType := some "soda" }
      else { productType := none, productFlavor := some "soda", orderQuantity := none })
  ∧ (validate_product_type (some "soda")).isValid = false
  ∧ i_order_product { products := [] } "x"
      { invocationSource := "DialogCodeHook", intentName := "OrderProduct",
        slots := { productType := none, productFlavor := some "soda", orderQuantity := none },
        sessionAttributes := none, userId := none } =
      (elicit_slot none "OrderProduct"
        { productType := none, productFlavor := some "soda", orderQuantity := none }
        (some SlotName.productType)
        (some (plainTextMessage ("We do not have soda, please select one of the following products. We offer:  ice cream and frozen yogurt"))),
       []) :=
  ⟨rfl, by decide, by decide,
   (order_validation_sequence { products := [] } "x"
     { invocationSource := "DialogCodeHook", intentName := "OrderProduct",
       slots := { productType := none, productFlavor := some "soda", orderQuantity := none },
       sessionAttributes := none, userId := none }
     { productType := some "soda", productFlavor := some "soda", orderQuantity := none }
     rfl (by decide)).1 (by decide)⟩

/-- C6: every ElicitSlot returned by an intent handler carries its
slotToElicit slot with a null value in the outgoing slot mapping. -/
theorem elicit_clears_violated_slot (store : Store) (orderId : String) (req : IntentRequest)
    (iname : String) (s : Slots) (te : Option SlotName) (msg : Option Message) (name : SlotName)
    (h : (i_product_flavor store req).dialogAction = DialogAction.elicitSlot iname s te msg
       ∨ ((i_order_product store orderId req).1).dialogAction =
           DialogAction.elicitSlot iname s te msg
       ∨ (i_help req).dialogAction = DialogAction.elicitSlot iname s te msg)
    (hte : te = some name) :
    getSlot s name = none := by
  subst hte
  rcases h with h | h | h <;>
      simp only [i_product_flavor, i_order_product, i_help, get_slots] at h <;>
      repeat' split at h
  all_goals
    first
      | (simp only [elicit_slot, DialogAction.elicitSlot.injEq] at h
         obtain ⟨-, h2, h3, -⟩ := h
         rw [h3] at h2
         rw [← h2]
         simp only [setSlotO]
         exact getSlot_setSlot_self _ _)
      | (simp [delegate, close, elicit_slot] at h
         done)

/-- Witness for C6: the ElicitSlot produced by an order turn with an
unknown product type names productType, and that slot is null in the
returned mapping. -/
theorem elicit_clears_violated_slot_witness :
    ((i_order_product { products := [] } "x"
        { invocationSource := "DialogCodeHook", intentName := "OrderProduct",
          slots := { productType := some "soda", productFlavor := none, orderQuantity := none },
          sessionAttributes := none, userId := none }).1).dialogAction =
      DialogAction.elicitSlot "OrderProduct"
        { productType := none, productFlavor := none, orderQuantity := none }
        (some SlotName.productType)
        (some (plainTextMessage ("We do not have soda, please select one of the following products. We offer:  ice cream and frozen yogurt")))
  ∧ getSlot { productType := none, productFlavor := none, orderQuantity := none }
      SlotName.productType = none :=
  ⟨by decide,
   elicit_clears_violated_slot { products := [] } "x"
     { invocationSource := "DialogCodeHook", intentName := "OrderProduct",
       slots := { productType := some "soda", productFlavor := none, orderQuantity := none },
       sessionAttributes := none, userId := none }
     "OrderProduct" { productType := none, productFlavor := none, orderQuantity := none }
     (some SlotName.productType)
     (some (plainTextMessage ("We do not have soda, please select one of the following products. We offer:  ice cream and frozen yogurt")))
     SlotName.productType (Or.inr (Or.inl (by decide))) rfl⟩

/-- C9 counterexample: a turn with null incoming sessionAttributes whose
ElicitSlot response still carries null (not the empty mapping). -/
theorem session_null_not_defaulted_counterexample :
    ((i_order_product { products := [] } "x"
        { invocationSource := "DialogCodeHook", intentName := "OrderProduct",
          slots := { productType := some "soda", productFlavor := none, orderQuantity := none },
          sessionAttributes := none, userId := none }).1).sessionAttributes = none
  ∧ (none : Option SessionAttrs) ≠ some [] :=
  ⟨by decide, by decide⟩

/-- Every result of the product-flavor handler is an ElicitSlot or Close
carrying the incoming session attributes, or a Delegate carrying the
null-defaulted ones. -/
lemma i_product_flavor_shapes (store : Store) (req : IntentRequest) :
    (∃ a b c d, i_product_flavor store req = elicit_slot req.sessionAttributes a b c d)
  ∨ (∃ a b, i_product_flavor store req = close req.sessionAttributes a b)
  ∨ (∃ a, i_product_flavor store req =
      delegate (match req.sessionAttributes with
        | some s => some s
        | none => some ([] : SessionAttrs)) a) := by
  simp only [i_product_flavor, get_slots]
  repeat' split
  all_goals first
    | (left; exact ⟨_, _, _, _, rfl⟩)
    | (right; left; exact ⟨_, _, rfl⟩)
    | (right; right; exact ⟨_, rfl⟩)

/-- Every result of the order handler is an ElicitSlot or Close carrying
the incoming session attributes, or a Delegate carrying the
null-defaulted ones. -/
lemma i_order_product_shapes (store : Store) (orderId : String) (req : IntentRequest) :
    (∃ a b c d, (i_order_product store orderId req).1 = elicit_slot req.sessionAttributes a b c d)
  ∨ (∃ a b, (i_order_product store orderId req).1 = close req.sessionAttributes a b)
  ∨ (∃ a, (i_order_product store orderId req).1 =
      delegate (match req.sessionAttributes with
        | some s => some s
        | none => some ([] : SessionAttrs)) a) := by
  simp only [i_order_product, get_slots]
  repeat' split
  all_goals first
    | (left; exact ⟨_, _, _, _, rfl⟩)
    | (right; left; exact ⟨_, _, rfl⟩)
    | (right; right; exact ⟨_, rfl⟩)

/-- C9 amended: session attributes accompany every response shape, but
the null-to-empty defaulting happens only on the Delegate path; ElicitSlot
and Close propagate the incoming value (possibly null) unchanged. -/
theorem session_attributes_per_shape (store : Store) (orderId : String) (req : IntentRequest) :
    ((i_help req).sessionAttributes = req.sessionAttributes)
  ∧ ((i_product_flavor store req).sessionAttributes =
      match (i_product_flavor store req).dialogAction with
      | DialogAction.delegate _ => some (req.sessionAttributes.getD [])
      | _ => req.sessionAttributes)
  ∧ (((i_order_product store orderId req).1).sessionAttributes =
      match ((i_order_product store orderId req).1).dialogAction with
      | DialogAction.delegate _ => some (req.sessionAttributes.getD [])
      | _ => req.sessionAttributes) := by
  refine ⟨rfl, ?_, ?_⟩
  · rcases i_product_flavor_shapes store req with ⟨a, b, c, d, h⟩ | ⟨a, b, h⟩ | ⟨a, h⟩ <;>
      rw [h]
    · rfl
    · rfl
    · cases req.sessionAttributes <;> rfl
  · rcases i_order_product_shapes store orderId req with ⟨a, b, c, d, h⟩ | ⟨a, b, h⟩ | ⟨a, h⟩ <;>
      rw [h]
    · rfl
    · rfl
    · cases req.sessionAttributes <;> rfl

end DynamicChatbot
